import Mathlib

/- Verification of the rubiks cube stopwatch program (src/main.py).
   The file shallowly embeds the duration formatter, the key-event state
   machine, the config loading and the InfluxDB transmission of the
   RubiksCubeStopWatch class, and proves the specified properties. -/

/-- One decimal digit character, as Python prints it. -/
def digitChar (d : Nat) : Char := Char.ofNat (48 + d)

/-- Fuelled decimal printing of a natural number. -/
def natDigitsAux : Nat → Nat → List Char
  | 0, _ => []
  | fuel + 1, n =>
    if n < 10 then [digitChar n]
    else natDigitsAux fuel (n / 10) ++ [digitChar (n % 10)]

/-- Decimal digits of a natural number without leading zeros, the characters
Python prints for the integer part of a float in plain decimal form. -/
def natDigits (n : Nat) : List Char := natDigitsAux (n + 1) n

/-- Embedding of the Python call str.split with the dot separator, on the
characters of the string: every maximal dot-free run becomes one piece, and
the result always has one more piece than there are dots. -/
def splitDot : List Char → List (List Char)
  | [] => [[]]
  | c :: cs =>
    if c = '.' then [] :: splitDot cs
    else
      match splitDot cs with
      | [] => [[c]]
      | h :: t => (c :: h) :: t

/-- Zero padding to width two, as strftime prints the fields of %H:%M:%S. -/
def pad2 (n : Nat) : List Char := if n < 10 then '0' :: natDigits n else natDigits n

/-- Embedding of time.strftime applied to time.gmtime of the floored seconds:
gmtime decomposes into an hour of day that wraps at 24, a minute and a
second, and strftime prints each zero padded to two digits. -/
def strftime_HMS (t : Nat) : List Char :=
  pad2 (t / 3600 % 24) ++ ':' :: pad2 (t % 3600 / 60) ++ ':' :: pad2 (t % 60)

/-- A non-negative Python float as format_seconds observes it: the characters
of str applied to it, and the floor that time.gmtime uses. -/
structure PyFloat where
  toStr : List Char
  floor : Nat

/-- The str of the float is in plain decimal form: the decimal digits of the
integer part, a dot, then a dot-free fractional tail, and the gmtime floor is
that integer part. -/
def IsDecimalRepr (p : PyFloat) (ipart : Nat) (frac : List Char) : Prop :=
  p.toStr = natDigits ipart ++ '.' :: frac ∧ p.floor = ipart ∧ '.' ∉ frac

/-- Embedding of RubiksCubeStopWatch.format_seconds of src/main.py: take the
piece after the first dot of str of the input (an IndexError, modelled as
none, when there is no dot), keep its first three characters, and append it
after the strftime output. -/
def RubiksCubeStopWatch.format_seconds (seconds : PyFloat) : Option (List Char) :=
  match (splitDot seconds.toStr)[1]? with
  | none => none
  | some fracPiece =>
    let miliseconds := fracPiece.take 3
    some (strftime_HMS seconds.floor ++ '.' :: miliseconds)

/-- The mutable attributes of the RubiksCubeStopWatch window of src/main.py:
the start instant and final duration, the stored after identifier, the main
label text, the send button caption and packed flag, and the selected cube. -/
structure RubiksCubeStopWatch where
  start_time : Option ℚ
  final_time : Option ℚ
  after_id : Option Nat
  label : String
  influx_btn_text : String
  influx_btn_packed : Bool
  cube_choice : String

/-- Python truthiness of an Optional float: None and 0.0 are falsy. -/
def pyTruthy : Option ℚ → Bool
  | none => false
  | some v => v != 0

namespace RubiksCubeStopWatch

/-- The state built by the constructor of RubiksCubeStopWatch before the main
loop runs: no start or final time, no after identifier, the instructional
label, the default button caption with the button not packed, and the default
cube selection. -/
def initState : RubiksCubeStopWatch :=
  { start_time := none
    final_time := none
    after_id := none
    label := "Press space to start the stopwatch"
    influx_btn_text := "Send result to InfluxDb"
    influx_btn_packed := false
    cube_choice := "speed" }

/-- Embedding of start of src/main.py: record the monotonic clock reading. -/
def start (now : ℚ) (s : RubiksCubeStopWatch) : RubiksCubeStopWatch :=
  { s with start_time := some now }

/-- Embedding of display_time of src/main.py, at one invocation with the
given clock reading and the elapsed-time formatter: update the label (the
branch without a start time shows the starting text) and store the identifier
of the scheduled after event. -/
def display_time (fmt : ℚ → String) (now : ℚ) (s : RubiksCubeStopWatch) :
    RubiksCubeStopWatch :=
  { s with
    label := match s.start_time with
      | none => "Starting...."
      | some t0 => fmt (now - t0)
    after_id := some 0 }

/-- Embedding of stop of src/main.py: cancel the after event, record the
elapsed seconds as the final time, pack the send button and display the
formatted final time. The dispatch only reaches stop once a start instant
exists; without one the attribute read would fail, kept here as the identity
on the unreachable branch. -/
def stop (fmt : ℚ → String) (now : ℚ) (s : RubiksCubeStopWatch) :
    RubiksCubeStopWatch :=
  match s.start_time with
  | none => s
  | some t0 =>
    { s with
      final_time := some (now - t0)
      influx_btn_packed := true
      label := "Elapsed time: " ++ fmt (now - t0) ++ " seconds" }

/-- Embedding of restart of src/main.py: clear both recorded instants, hide
the send button, restore its caption and show the restart hint. -/
def restart (s : RubiksCubeStopWatch) : RubiksCubeStopWatch :=
  { s with
    start_time := none
    final_time := none
    influx_btn_packed := false
    influx_btn_text := "Send result to InfluxDb"
    label := "Hit space to start the stopwatch!" }

/-- Embedding of handle_user_event of src/main.py: space starts when there is
no start time yet (display_time runs before start, as in the source), space
stops when the final time is not truthy, and the a key restarts when the
final time is truthy; every other event is ignored. -/
def handle_user_event (fmt : ℚ → String) (keysym : String) (now : ℚ)
    (s : RubiksCubeStopWatch) : RubiksCubeStopWatch :=
  if keysym = "space" ∧ s.start_time = none then
    start now (display_time fmt now s)
  else if keysym = "space" ∧ pyTruthy s.final_time = false then
    stop fmt now s
  else if keysym = "a" ∧ pyTruthy s.final_time = true then
    restart s
  else s

end RubiksCubeStopWatch

/-- A parsed config.json object: field names mapped to string values. -/
abbrev Config := List (String × String)

/-- Python dict subscription on the config: a missing key raises KeyError. -/
def dictGet (cfg : Config) (key : String) : Except String String :=
  match cfg.lookup key with
  | some v => Except.ok v
  | none => Except.error ("KeyError: " ++ key)

/-- An influxdb_client Point: one measurement name with the tag and field
pairs added by the builder calls. -/
structure Point where
  measurement : String
  tags : List (String × String)
  fields : List (String × ℚ)

/-- The tag builder of influxdb_client: append one tag pair. -/
def Point.tag (p : Point) (key value : String) : Point :=
  { p with tags := p.tags ++ [(key, value)] }

/-- The field builder of influxdb_client: append one numeric field pair. -/
def Point.field (p : Point) (key : String) (value : ℚ) : Point :=
  { p with fields := p.fields ++ [(key, value)] }

/-- The outcome of the synchronous write call: success, or an InfluxDBError
carrying its displayed message. -/
inductive WriteOutcome where
  | success : WriteOutcome
  | failure : String → WriteOutcome

namespace RubiksCubeStopWatch

/-- Embedding of transmit_to_influxdb of src/main.py: a None duration is a
complete no-op; otherwise the three access keys are read from the config (a
missing one raises KeyError), the point is built from the current cube
choice, the bucket key is read, and the guarded write either succeeds, which
sets the sent caption on the button, or raises InfluxDBError, whose message
is shown in the main label. The returned point is the record handed to the
write call. -/
def transmit_to_influxdb (cfg : Config) (wr : WriteOutcome)
    (s : RubiksCubeStopWatch) (recorded_seconds : Option ℚ) :
    Except String (RubiksCubeStopWatch × Option Point) :=
  match recorded_seconds with
  | none => Except.ok (s, none)
  | some r =>
    match dictGet cfg "INFLUX_URL" with
    | Except.error e => Except.error e
    | Except.ok _ =>
      match dictGet cfg "INFLUX_TOKEN" with
      | Except.error e => Except.error e
      | Except.ok _ =>
        match dictGet cfg "INFLUX_ORG" with
        | Except.error e => Except.error e
        | Except.ok _ =>
          let data := ((Point.mk "solving_time" [] []).tag "cube" s.cube_choice).field "recorded_time" r
          match dictGet cfg "INFLUX_BUCKET" with
          | Except.error e => Except.error e
          | Except.ok _ =>
            match wr with
            | WriteOutcome.success =>
                Except.ok ({ s with influx_btn_text := "Data sent to InfluxDb!" }, some data)
            | WriteOutcome.failure msg =>
                Except.ok ({ s with label := msg }, some data)

/-- Embedding of get_config of src/main.py: open config.json, raising
FileNotFoundError when it is absent, and parse it. No field is validated. -/
def get_config (file : Option Config) : Except String Config :=
  match file with
  | none => Except.error "FileNotFoundError: config.json"
  | some cfg => Except.ok cfg

/-- Embedding of the constructor of RubiksCubeStopWatch up to the main loop:
the config is loaded first, and an exception there propagates before any
widget exists, so no window opens; otherwise the window opens in the initial
state. -/
def initApp (file : Option Config) :
    Except String (Config × RubiksCubeStopWatch) :=
  match get_config file with
  | Except.error e => Except.error e
  | Except.ok cfg => Except.ok (cfg, initState)

end RubiksCubeStopWatch

/-- The user events the window reacts to: a key press at a clock instant, a
press of the send button together with the outcome of the attempted write,
and a dropdown selection of the cube kind. -/
inductive UiEvent where
  | key : String → ℚ → UiEvent
  | sendBtn : WriteOutcome → UiEvent
  | selectCube : String → UiEvent

namespace RubiksCubeStopWatch

/-- One event step of the window. The send button calls transmit_to_influxdb
with the final time read at press time; an uncaught exception there, a
KeyError, leaves the state unchanged because no attribute is written before
the raise. -/
def stepEvent (fmt : ℚ → String) (cfg : Config) (e : UiEvent)
    (s : RubiksCubeStopWatch) : RubiksCubeStopWatch :=
  match e with
  | UiEvent.key k now => handle_user_event fmt k now s
  | UiEvent.sendBtn wr =>
    match transmit_to_influxdb cfg wr s s.final_time with
    | Except.ok (s2, _) => s2
    | Except.error _ => s
  | UiEvent.selectCube c => { s with cube_choice := c }

/-- The states reachable from the initial state, together with an upper bound
on the monotonic clock: key events happen at strictly later instants, since
time.perf_counter is strictly increasing across calls. -/
inductive Reachable (fmt : ℚ → String) (cfg : Config) :
    RubiksCubeStopWatch → ℚ → Prop where
  | init : Reachable fmt cfg initState 0
  | key (s : RubiksCubeStopWatch) (t now : ℚ) (k : String) :
      Reachable fmt cfg s t → t < now →
      Reachable fmt cfg (handle_user_event fmt k now s) now
  | sendBtn (s : RubiksCubeStopWatch) (t : ℚ) (wr : WriteOutcome) :
      Reachable fmt cfg s t →
      Reachable fmt cfg (stepEvent fmt cfg (UiEvent.sendBtn wr) s) t
  | selectCube (s : RubiksCubeStopWatch) (t : ℚ) (c : String) :
      Reachable fmt cfg s t →
      Reachable fmt cfg (stepEvent fmt cfg (UiEvent.selectCube c) s) t

end RubiksCubeStopWatch

/-- The four session states of the specification. -/
inductive SessionState where
  | idle : SessionState
  | running : SessionState
  | stopped : SessionState
  | sent : SessionState
deriving DecidableEq

/-- The specification state read off the program state: without a final time
the session is idle or running according to the start time; with one it is
stopped, or sent once the button caption is the sent caption. -/
def sessionState (s : RubiksCubeStopWatch) : SessionState :=
  match s.final_time with
  | none =>
    match s.start_time with
    | none => SessionState.idle
    | some _ => SessionState.running
  | some _ =>
    if s.influx_btn_text = "Data sent to InfluxDb!" then SessionState.sent
    else SessionState.stopped

/-- The invariant of reachable states: start instants never exceed the clock
bound, final times are strictly positive, a final time implies a start
instant, and the button caption stays the default until a final time
exists. -/
def StopwatchInv (s : RubiksCubeStopWatch) (t : ℚ) : Prop :=
  (∀ u, s.start_time = some u → u ≤ t) ∧
  (∀ v, s.final_time = some v → 0 < v) ∧
  (s.final_time ≠ none → s.start_time ≠ none) ∧
  (s.final_time = none → s.influx_btn_text = "Send result to InfluxDb")

/-- A complete config carrying all four required fields. -/
def cfgFull : Config :=
  [("INFLUX_URL", "http://localhost:8086"), ("INFLUX_TOKEN", "tok"),
   ("INFLUX_ORG", "org"), ("INFLUX_BUCKET", "bucket")]

/-- A sample stopped state: started at instant 1 and stopped at instant 3. -/
def stoppedState : RubiksCubeStopWatch :=
  { start_time := some 1
    final_time := some 2
    after_id := some 0
    label := "Elapsed time: 00:00:02.0 seconds"
    influx_btn_text := "Send result to InfluxDb"
    influx_btn_packed := true
    cube_choice := "speed" }

/-- Every character produced by the fuelled digit printer is a digit
character for a value below ten. -/
theorem mem_natDigitsAux (fuel n : Nat) (c : Char) (hc : c ∈ natDigitsAux fuel n) :
    ∃ d, d < 10 ∧ c = digitChar d := by
  induction fuel generalizing n with
  | zero => simp [natDigitsAux] at hc
  | succ fuel ih =>
    rw [natDigitsAux] at hc
    by_cases h : n < 10
    · rw [if_pos h] at hc
      simp at hc
      exact ⟨n, h, hc⟩
    · rw [if_neg h] at hc
      rcases List.mem_append.mp hc with h1 | h2
      · exact ih _ h1
      · simp at h2
        exact ⟨n % 10, Nat.mod_lt _ (by omega), h2⟩

/-- A digit character is never the dot. -/
theorem digitChar_ne_dot (d : Nat) (hd : d < 10) : digitChar d ≠ '.' := by
  interval_cases d <;> decide

/-- The decimal digits of a natural number never contain the dot. -/
theorem natDigits_no_dot (n : Nat) : '.' ∉ natDigits n := by
  intro hmem
  obtain ⟨d, hd, hc⟩ := mem_natDigitsAux _ _ _ hmem
  exact digitChar_ne_dot d hd hc.symm

/-- Splitting a dot-free string on the dot returns the whole string as the
single piece. -/
theorem splitDot_no_dot (l : List Char) (h : '.' ∉ l) : splitDot l = [l] := by
  induction l with
  | nil => rfl
  | cons c cs ih =>
    rw [List.mem_cons, not_or] at h
    rw [splitDot, if_neg (fun hc => h.1 hc.symm), ih h.2]

/-- Splitting a string made of a dot-free prefix, a dot and a tail yields the
prefix followed by the split of the tail. -/
theorem splitDot_append (A B : List Char) (hA : '.' ∉ A) :
    splitDot (A ++ '.' :: B) = A :: splitDot B := by
  induction A with
  | nil => simp [splitDot]
  | cons a A ih =>
    rw [List.mem_cons, not_or] at hA
    rw [List.cons_append, splitDot, if_neg (fun hc => hA.1 hc.symm),
      ih hA.2]

/-- On a float in plain decimal form, format_seconds returns the strftime
output of the floor followed by a dot and the first three fractional
characters. -/
theorem format_seconds_decimal (p : PyFloat) (ipart : Nat) (frac : List Char)
    (h : IsDecimalRepr p ipart frac) :
    RubiksCubeStopWatch.format_seconds p =
      some (strftime_HMS ipart ++ '.' :: frac.take 3) := by
  obtain ⟨hstr, hfloor, hfrac⟩ := h
  rw [RubiksCubeStopWatch.format_seconds, hstr, hfloor,
    splitDot_append _ _ (natDigits_no_dot ipart), splitDot_no_dot _ hfrac]
  rfl

/-- With positive fuel, a value below ten prints as its single digit. -/
theorem natDigitsAux_single (fuel n : Nat) (hn : n < 10) (hf : 1 ≤ fuel) :
    natDigitsAux fuel n = [digitChar n] := by
  cases fuel with
  | zero => omega
  | succ fuel => rw [natDigitsAux, if_pos hn]

/-- The zero-padded print of a value below one hundred has width two. -/
theorem pad2_length_two (n : Nat) (hn : n < 100) : (pad2 n).length = 2 := by
  by_cases h : n < 10
  · rw [pad2, if_pos h, natDigits, natDigitsAux_single _ _ h (by omega)]
    rfl
  · rw [pad2, if_neg h, natDigits, natDigitsAux]
    rw [if_neg h]
    rw [natDigitsAux_single _ _ (by omega) (by omega)]
    rfl

namespace RubiksCubeStopWatch

/-- A nonzero recorded float is truthy. -/
theorem pyTruthy_some (v : ℚ) (hv : v ≠ 0) : pyTruthy (some v) = true := by
  simp [pyTruthy, hv]

/-- None is falsy. -/
theorem pyTruthy_none : pyTruthy none = false := rfl

/-- A falsy optional float is None or 0.0. -/
theorem eq_of_not_pyTruthy (o : Option ℚ) (h : pyTruthy o = false) :
    o = none ∨ o = some 0 := by
  cases o with
  | none => exact Or.inl rfl
  | some v =>
    simp [pyTruthy] at h
    exact Or.inr (by rw [h])

/-- Dispatch, first branch: space with no start time runs display_time then
start. -/
theorem handle_eq_start (fmt : ℚ → String) (now : ℚ) (s : RubiksCubeStopWatch)
    (h : s.start_time = none) :
    handle_user_event fmt "space" now s = start now (display_time fmt now s) := by
  rw [handle_user_event, if_pos ⟨rfl, h⟩]

/-- Dispatch, second branch: space with a start time and a falsy final time
runs stop. -/
theorem handle_eq_stop (fmt : ℚ → String) (now : ℚ) (s : RubiksCubeStopWatch)
    (h1 : s.start_time ≠ none) (h2 : pyTruthy s.final_time = false) :
    handle_user_event fmt "space" now s = stop fmt now s := by
  rw [handle_user_event, if_neg (fun hc => h1 hc.2), if_pos ⟨rfl, h2⟩]

/-- Dispatch, space with a start time and a truthy final time: no branch
applies and the state is unchanged. -/
theorem handle_space_noop (fmt : ℚ → String) (now : ℚ) (s : RubiksCubeStopWatch)
    (h1 : s.start_time ≠ none) (h2 : pyTruthy s.final_time = true) :
    handle_user_event fmt "space" now s = s := by
  rw [handle_user_event, if_neg (fun hc => h1 hc.2),
    if_neg (fun hc => by rw [h2] at hc; exact absurd hc.2 (by decide)),
    if_neg (fun hc => absurd hc.1 (by decide))]

/-- Dispatch, third branch: the a key with a truthy final time restarts. -/
theorem handle_eq_restart (fmt : ℚ → String) (now : ℚ) (s : RubiksCubeStopWatch)
    (h : pyTruthy s.final_time = true) :
    handle_user_event fmt "a" now s = restart s := by
  rw [handle_user_event, if_neg (fun hc => absurd hc.1 (by decide)),
    if_neg (fun hc => absurd hc.1 (by decide)), if_pos ⟨rfl, h⟩]

/-- Dispatch, the a key with a falsy final time: no branch applies. -/
theorem handle_a_noop (fmt : ℚ → String) (now : ℚ) (s : RubiksCubeStopWatch)
    (h : pyTruthy s.final_time = false) :
    handle_user_event fmt "a" now s = s := by
  rw [handle_user_event, if_neg (fun hc => absurd hc.1 (by decide)),
    if_neg (fun hc => absurd hc.1 (by decide)),
    if_neg (fun hc => by rw [h] at hc; exact absurd hc.2 (by decide))]

/-- Dispatch: any key other than space and a is ignored. -/
theorem handle_other_noop (fmt : ℚ → String) (k : String) (now : ℚ)
    (s : RubiksCubeStopWatch) (hk1 : k ≠ "space") (hk2 : k ≠ "a") :
    handle_user_event fmt k now s = s := by
  rw [handle_user_event, if_neg (fun hc => hk1 hc.1),
    if_neg (fun hc => hk1 hc.1), if_neg (fun hc => hk2 hc.1)]

end RubiksCubeStopWatch

/-- The session is idle exactly when neither instant is recorded. -/
theorem sessionState_idle_iff (s : RubiksCubeStopWatch) :
    sessionState s = SessionState.idle ↔
      s.final_time = none ∧ s.start_time = none := by
  cases hf : s.final_time with
  | none =>
    cases hs : s.start_time with
    | none => simp [sessionState, hf, hs]
    | some u => simp [sessionState, hf, hs]
  | some v =>
    by_cases hb : s.influx_btn_text = "Data sent to InfluxDb!" <;>
      simp [sessionState, hf, hb]

/-- The session is running exactly when started but not yet stopped. -/
theorem sessionState_running_iff (s : RubiksCubeStopWatch) :
    sessionState s = SessionState.running ↔
      s.final_time = none ∧ s.start_time ≠ none := by
  cases hf : s.final_time with
  | none =>
    cases hs : s.start_time with
    | none => simp [sessionState, hf, hs]
    | some u => simp [sessionState, hf, hs]
  | some v =>
    by_cases hb : s.influx_btn_text = "Data sent to InfluxDb!" <;>
      simp [sessionState, hf, hb]

/-- The session is stopped exactly when a final time exists and the button
caption is not the sent caption. -/
theorem sessionState_stopped_iff (s : RubiksCubeStopWatch) :
    sessionState s = SessionState.stopped ↔
      s.final_time ≠ none ∧ s.influx_btn_text ≠ "Data sent to InfluxDb!" := by
  cases hf : s.final_time with
  | none =>
    cases hs : s.start_time with
    | none => simp [sessionState, hf, hs]
    | some u => simp [sessionState, hf, hs]
  | some v =>
    by_cases hb : s.influx_btn_text = "Data sent to InfluxDb!" <;>
      simp [sessionState, hf, hb]

/-- The session is sent exactly when a final time exists and the button
caption is the sent caption. -/
theorem sessionState_sent_iff (s : RubiksCubeStopWatch) :
    sessionState s = SessionState.sent ↔
      s.final_time ≠ none ∧ s.influx_btn_text = "Data sent to InfluxDb!" := by
  cases hf : s.final_time with
  | none =>
    cases hs : s.start_time with
    | none => simp [sessionState, hf, hs]
    | some u => simp [sessionState, hf, hs]
  | some v =>
    by_cases hb : s.influx_btn_text = "Data sent to InfluxDb!" <;>
      simp [sessionState, hf, hb]

namespace RubiksCubeStopWatch

/-- With all four config fields present, transmitting a recorded duration
reaches the write: on success the button caption becomes the sent caption,
on failure the message lands in the label, and in both cases the written
point is the solving_time measurement tagged with the current cube choice
and carrying the recorded seconds. -/
theorem transmit_eval (cfg : Config) (s : RubiksCubeStopWatch) (r : ℚ)
    (wr : WriteOutcome) (u tk og bk : String)
    (hu : cfg.lookup "INFLUX_URL" = some u)
    (ht : cfg.lookup "INFLUX_TOKEN" = some tk)
    (ho : cfg.lookup "INFLUX_ORG" = some og)
    (hb : cfg.lookup "INFLUX_BUCKET" = some bk) :
    transmit_to_influxdb cfg wr s (some r) = Except.ok
      ((match wr with
        | WriteOutcome.success => { s with influx_btn_text := "Data sent to InfluxDb!" }
        | WriteOutcome.failure msg => { s with label := msg }),
       some (Point.mk "solving_time" [("cube", s.cube_choice)]
         [("recorded_time", r)])) := by
  cases wr <;>
    simp [transmit_to_influxdb, dictGet, hu, ht, ho, hb, Point.tag, Point.field]

/-- A press of the send button never changes the session fields: the start
instant, the final duration and the cube choice are preserved, and with no
final duration the whole state is unchanged. -/
theorem stepEvent_sendBtn_fields (fmt : ℚ → String) (cfg : Config)
    (wr : WriteOutcome) (s : RubiksCubeStopWatch) :
    (stepEvent fmt cfg (UiEvent.sendBtn wr) s).start_time = s.start_time ∧
    (stepEvent fmt cfg (UiEvent.sendBtn wr) s).final_time = s.final_time ∧
    (stepEvent fmt cfg (UiEvent.sendBtn wr) s).cube_choice = s.cube_choice ∧
    (s.final_time = none → stepEvent fmt cfg (UiEvent.sendBtn wr) s = s) := by
  cases hf : s.final_time with
  | none => simp [stepEvent, transmit_to_influxdb, hf]
  | some r =>
    simp only [stepEvent, transmit_to_influxdb, hf]
    cases h1 : dictGet cfg "INFLUX_URL" with
    | error e => simp [hf]
    | ok v1 =>
      cases h2 : dictGet cfg "INFLUX_TOKEN" with
      | error e => simp [hf]
      | ok v2 =>
        cases h3 : dictGet cfg "INFLUX_ORG" with
        | error e => simp [hf]
        | ok v3 =>
          cases h4 : dictGet cfg "INFLUX_BUCKET" with
          | error e => simp [hf]
          | ok v4 => cases wr <;> simp [hf]

/-- The initial state satisfies the invariant at clock bound zero. -/
theorem stopwatchInv_init : StopwatchInv initState 0 := by
  refine ⟨?_, ?_, ?_, ?_⟩ <;> simp [initState, StopwatchInv]

/-- A key event at a strictly later instant preserves the invariant. -/
theorem stopwatchInv_key (fmt : ℚ → String) (k : String) (now : ℚ)
    (s : RubiksCubeStopWatch) (t : ℚ) (h : StopwatchInv s t) (hlt : t < now) :
    StopwatchInv (handle_user_event fmt k now s) now := by
  obtain ⟨h1, h2, h3, h4⟩ := h
  by_cases hk : k = "space"
  · subst hk
    cases hst : s.start_time with
    | none =>
      rw [handle_eq_start _ _ _ hst]
      refine ⟨?_, ?_, ?_, ?_⟩
      · intro u hu
        simp [start, display_time] at hu
        exact le_of_eq hu.symm
      · intro v hv
        exact h2 v hv
      · intro _
        simp [start, display_time]
      · intro hfin
        exact h4 hfin
    | some u0 =>
      have hne : s.start_time ≠ none := by rw [hst]; exact Option.some_ne_none u0
      cases htr : pyTruthy s.final_time with
      | false =>
        rw [handle_eq_stop _ _ _ hne htr]
        have hfin : s.final_time = none := by
          rcases eq_of_not_pyTruthy _ htr with hcase | hcase
          · exact hcase
          · exact absurd (h2 0 hcase) (lt_irrefl 0)
        simp only [stop, hst]
        refine ⟨?_, ?_, ?_, ?_⟩
        · intro u hu
          simp at hu
          subst hu
          exact le_of_lt (lt_of_le_of_lt (h1 u0 hst) hlt)
        · intro v hv
          simp at hv
          subst hv
          have := h1 u0 hst
          linarith
        · intro _
          simp [hst]
        · intro hf
          simp at hf
      | true =>
        rw [handle_space_noop _ _ _ hne htr]
        exact ⟨fun u hu => le_trans (h1 u hu) (le_of_lt hlt), h2, h3, h4⟩
  · by_cases hk2 : k = "a"
    · subst hk2
      cases htr : pyTruthy s.final_time with
      | false =>
        rw [handle_a_noop _ _ _ htr]
        exact ⟨fun u hu => le_trans (h1 u hu) (le_of_lt hlt), h2, h3, h4⟩
      | true =>
        rw [handle_eq_restart _ _ _ htr]
        refine ⟨?_, ?_, ?_, ?_⟩ <;> simp [restart]
    · rw [handle_other_noop _ _ _ _ hk hk2]
      exact ⟨fun u hu => le_trans (h1 u hu) (le_of_lt hlt), h2, h3, h4⟩

/-- A press of the send button preserves the invariant. -/
theorem stopwatchInv_sendBtn (fmt : ℚ → String) (cfg : Config)
    (wr : WriteOutcome) (s : RubiksCubeStopWatch) (t : ℚ)
    (h : StopwatchInv s t) :
    StopwatchInv (stepEvent fmt cfg (UiEvent.sendBtn wr) s) t := by
  obtain ⟨hstart, hfinal, hcube, hid⟩ := stepEvent_sendBtn_fields fmt cfg wr s
  cases hf : s.final_time with
  | none => rw [hid hf]; exact h
  | some v =>
    obtain ⟨h1, h2, h3, h4⟩ := h
    refine ⟨?_, ?_, ?_, ?_⟩
    · intro u hu
      rw [hstart] at hu
      exact h1 u hu
    · intro w hw
      rw [hfinal] at hw
      exact h2 w hw
    · intro _
      rw [hstart]
      exact h3 (by rw [hf]; exact Option.some_ne_none v)
    · intro hn
      rw [hfinal, hf] at hn
      exact absurd hn (Option.some_ne_none v)

/-- A dropdown selection preserves the invariant. -/
theorem stopwatchInv_selectCube (c : String) (s : RubiksCubeStopWatch)
    (t : ℚ) (h : StopwatchInv s t) :
    StopwatchInv ({ s with cube_choice := c } : RubiksCubeStopWatch) t := h

/-- Every reachable state satisfies the invariant at its clock bound. -/
theorem reachable_inv (fmt : ℚ → String) (cfg : Config)
    (s : RubiksCubeStopWatch) (t : ℚ) (h : Reachable fmt cfg s t) :
    StopwatchInv s t := by
  induction h with
  | init => exact stopwatchInv_init
  | key s t now k hr hlt ih => exact stopwatchInv_key fmt k now s t ih hlt
  | sendBtn s t wr hr ih => exact stopwatchInv_sendBtn fmt cfg wr s t ih
  | selectCube s t c hr ih => exact stopwatchInv_selectCube c s t ih

end RubiksCubeStopWatch

/-- Claim C1: the claim asserts that format_seconds pads the millisecond
field with zeros to a fixed width of three, with format_seconds at 0.0 equal
to 00:00:00.000 and at 0.05 equal to 00:00:00.050. The code instead keeps
the fractional characters of str as they are, producing the under-padded
00:00:00.05 and 00:00:00.0 at these failing inputs. -/
theorem C1_format_seconds_underpads :
    RubiksCubeStopWatch.format_seconds ⟨"0.05".data, 0⟩ = some "00:00:00.05".data ∧
    RubiksCubeStopWatch.format_seconds ⟨"0.0".data, 0⟩ = some "00:00:00.0".data ∧
    "00:00:00.05".data ≠ "00:00:00.050".data ∧
    "00:00:00.0".data ≠ "00:00:00.000".data := by
  refine ⟨by decide, by decide, by decide, by decide⟩

/-- Claim C5, counterexample: at 25 hours (90000 seconds, str 90000.0) the
hours field of format_seconds is 01, not 25: gmtime wraps at day
boundaries, refuting the claim that hours keep accumulating past 23. -/
theorem C5_counterexample :
    RubiksCubeStopWatch.format_seconds ⟨"90000.0".data, 90000⟩ =
      some "01:00:00.0".data ∧
    "01:00:00.0".data.take 2 = "01".data ∧
    "01".data ≠ "25".data := by
  refine ⟨by decide, by decide, by decide⟩

/-- Claim C5, amended: for every duration of at least 24 hours in plain
decimal form, the hours field of format_seconds is the total hours modulo
24, hence always below 24: the formatter wraps at day boundaries instead of
accumulating. -/
theorem C5_hours_wrap_mod24 (p : PyFloat) (ipart : Nat) (frac : List Char)
    (h : IsDecimalRepr p ipart frac) (hday : 86400 ≤ ipart) :
    RubiksCubeStopWatch.format_seconds p =
      some (strftime_HMS ipart ++ '.' :: frac.take 3) ∧
    strftime_HMS ipart =
      pad2 (ipart / 3600 % 24) ++ ':' :: pad2 (ipart % 3600 / 60) ++
        ':' :: pad2 (ipart % 60) ∧
    ipart / 3600 % 24 < 24 := by
  refine ⟨format_seconds_decimal p ipart frac h, rfl, ?_⟩
  omega

/-- Claim C5, witness for the amended statement at 90000 seconds. -/
theorem C5_hours_wrap_mod24_witness :
    IsDecimalRepr ⟨"90000.0".data, 90000⟩ 90000 "0".data ∧
    RubiksCubeStopWatch.format_seconds ⟨"90000.0".data, 90000⟩ =
      some (strftime_HMS 90000 ++ '.' :: ("0".data.take 3)) :=
  ⟨⟨by decide, by decide, by decide⟩,
   (C5_hours_wrap_mod24 ⟨"90000.0".data, 90000⟩ 90000 "0".data
     ⟨by decide, by decide, by decide⟩ (by omega)).1⟩

/-- Claim C6: on every duration in plain decimal form with more than three
fractional digits, format_seconds keeps exactly the first three fractional
characters (truncation, never rounding) after the zero-padded two-digit
hour, minute and second fields; in particular 3661.4567 formats as
01:01:01.456. -/
theorem C6_truncates_milliseconds (p : PyFloat) (ipart : Nat)
    (frac : List Char) (h : IsDecimalRepr p ipart frac)
    (hlen : 3 < frac.length) :
    RubiksCubeStopWatch.format_seconds p =
      some (strftime_HMS ipart ++ '.' :: frac.take 3) ∧
    strftime_HMS ipart =
      pad2 (ipart / 3600 % 24) ++ ':' :: pad2 (ipart % 3600 / 60) ++
        ':' :: pad2 (ipart % 60) ∧
    (pad2 (ipart / 3600 % 24)).length = 2 ∧
    (pad2 (ipart % 3600 / 60)).length = 2 ∧
    (pad2 (ipart % 60)).length = 2 ∧
    (frac.take 3).length = 3 ∧
    RubiksCubeStopWatch.format_seconds ⟨"3661.4567".data, 3661⟩ =
      some "01:01:01.456".data := by
  refine ⟨format_seconds_decimal p ipart frac h, rfl,
    pad2_length_two _ (by omega), pad2_length_two _ (by omega),
    pad2_length_two _ (by omega), ?_, by decide⟩
  rw [List.length_take]
  omega

/-- Claim C6, witness at 3661.4567. -/
theorem C6_truncates_milliseconds_witness :
    IsDecimalRepr ⟨"3661.4567".data, 3661⟩ 3661 "4567".data ∧
    3 < "4567".data.length ∧
    RubiksCubeStopWatch.format_seconds ⟨"3661.4567".data, 3661⟩ =
      some (strftime_HMS 3661 ++ '.' :: ("4567".data.take 3)) :=
  ⟨⟨by decide, by decide, by decide⟩, by decide,
   (C6_truncates_milliseconds ⟨"3661.4567".data, 3661⟩ 3661 "4567".data
     ⟨by decide, by decide, by decide⟩ (by decide)).1⟩

/-- Claim C9: format_seconds is not total on non-negative floats: the input
1e-07, whose str carries no dot, makes the subscription after split raise an
IndexError, modelled as none, instead of returning a formatted string. -/
theorem C9_scientific_repr_raises :
    '.' ∉ "1e-07".data ∧
    RubiksCubeStopWatch.format_seconds ⟨"1e-07".data, 0⟩ = none := by
  refine ⟨by decide, by decide⟩

namespace RubiksCubeStopWatch

/-- Claim C2: on every reachable state the key dispatch realises the
specified transition table: space in idle starts and yields running without
touching the final time; space in running stops, records a final time and
keeps the start instant; space in stopped or sent is a complete no-op; the
a key in stopped or sent resets to idle and clears the final time; the a key
in idle or running is a complete no-op; every other key is ignored. -/
theorem C2_transition_table (fmt : ℚ → String) (cfg : Config)
    (s : RubiksCubeStopWatch) (t now : ℚ)
    (hr : Reachable fmt cfg s t) (hnow : t < now) :
    (sessionState s = SessionState.idle →
      sessionState (handle_user_event fmt "space" now s) = SessionState.running ∧
      (handle_user_event fmt "space" now s).final_time = none) ∧
    (sessionState s = SessionState.running →
      sessionState (handle_user_event fmt "space" now s) = SessionState.stopped ∧
      (handle_user_event fmt "space" now s).final_time ≠ none ∧
      (handle_user_event fmt "space" now s).start_time = s.start_time) ∧
    (sessionState s = SessionState.stopped ∨ sessionState s = SessionState.sent →
      handle_user_event fmt "space" now s = s) ∧
    (sessionState s = SessionState.stopped ∨ sessionState s = SessionState.sent →
      sessionState (handle_user_event fmt "a" now s) = SessionState.idle ∧
      (handle_user_event fmt "a" now s).final_time = none) ∧
    (sessionState s = SessionState.idle ∨ sessionState s = SessionState.running →
      handle_user_event fmt "a" now s = s) ∧
    (∀ k, k ≠ "space" → k ≠ "a" → handle_user_event fmt k now s = s) := by
  obtain ⟨h1, h2, h3, h4⟩ := reachable_inv fmt cfg s t hr
  refine ⟨?_, ?_, ?_, ?_, ?_, ?_⟩
  · intro hid
    obtain ⟨hf, hs⟩ := (sessionState_idle_iff s).mp hid
    rw [handle_eq_start fmt now s hs]
    exact ⟨(sessionState_running_iff _).mpr ⟨hf, Option.some_ne_none now⟩, hf⟩
  · intro hrun
    obtain ⟨hf, hs⟩ := (sessionState_running_iff s).mp hrun
    have htr : pyTruthy s.final_time = false := by rw [hf]; rfl
    rw [handle_eq_stop fmt now s hs htr]
    obtain ⟨u0, hu0⟩ := Option.ne_none_iff_exists'.mp hs
    refine ⟨?_, ?_, ?_⟩
    · rw [sessionState_stopped_iff]
      constructor
      · simp [stop, hu0]
      · simp only [stop, hu0]
        rw [h4 hf]
        decide
    · simp [stop, hu0]
    · simp [stop, hu0]
  · intro hor
    have hfne : s.final_time ≠ none := by
      rcases hor with hcase | hcase
      · exact ((sessionState_stopped_iff s).mp hcase).1
      · exact ((sessionState_sent_iff s).mp hcase).1
    obtain ⟨v, hv⟩ := Option.ne_none_iff_exists'.mp hfne
    have htr : pyTruthy s.final_time = true := by
      rw [hv]
      exact pyTruthy_some v (ne_of_gt (h2 v hv))
    exact handle_space_noop fmt now s (h3 hfne) htr
  · intro hor
    have hfne : s.final_time ≠ none := by
      rcases hor with hcase | hcase
      · exact ((sessionState_stopped_iff s).mp hcase).1
      · exact ((sessionState_sent_iff s).mp hcase).1
    obtain ⟨v, hv⟩ := Option.ne_none_iff_exists'.mp hfne
    have htr : pyTruthy s.final_time = true := by
      rw [hv]
      exact pyTruthy_some v (ne_of_gt (h2 v hv))
    rw [handle_eq_restart fmt now s htr]
    exact ⟨(sessionState_idle_iff _).mpr ⟨rfl, rfl⟩, rfl⟩
  · intro hor
    have hf : s.final_time = none := by
      rcases hor with hcase | hcase
      · exact ((sessionState_idle_iff s).mp hcase).1
      · exact ((sessionState_running_iff s).mp hcase).1
    exact handle_a_noop fmt now s (by rw [hf]; rfl)
  · intro k hk1 hk2
    exact handle_other_noop fmt k now s hk1 hk2

/-- Claim C2, witness: from the freshly opened window, which is idle,
pressing space at instant 1 puts the session in the running state. -/
theorem C2_transition_table_witness :
    sessionState initState = SessionState.idle ∧
    (0 : ℚ) < 1 ∧
    sessionState (handle_user_event (fun _ => "") "space" 1 initState) =
      SessionState.running :=
  ⟨rfl, by norm_num,
   ((C2_transition_table (fun _ => "") [] initState 0 1 Reachable.init
     (by norm_num)).1 rfl).1⟩

/-- Claim C7: in every reachable state, a final duration is recorded exactly
when the session is stopped or sent. -/
theorem C7_final_iff_stopped_or_sent (fmt : ℚ → String) (cfg : Config)
    (s : RubiksCubeStopWatch) (t : ℚ) (hr : Reachable fmt cfg s t) :
    s.final_time ≠ none ↔
      (sessionState s = SessionState.stopped ∨
       sessionState s = SessionState.sent) := by
  constructor
  · intro hne
    by_cases hb : s.influx_btn_text = "Data sent to InfluxDb!"
    · exact Or.inr ((sessionState_sent_iff s).mpr ⟨hne, hb⟩)
    · exact Or.inl ((sessionState_stopped_iff s).mpr ⟨hne, hb⟩)
  · rintro (h | h)
    · exact ((sessionState_stopped_iff s).mp h).1
    · exact ((sessionState_sent_iff s).mp h).1

/-- Claim C7, witness at the reachable initial state. -/
theorem C7_final_iff_stopped_or_sent_witness :
    initState.final_time ≠ none ↔
      (sessionState initState = SessionState.stopped ∨
       sessionState initState = SessionState.sent) :=
  C7_final_iff_stopped_or_sent (fun _ => "") [] initState 0 Reachable.init

/-- Claim C10: in every reachable state a recorded final duration implies the
start instant is still recorded, and the start instant survives everything
except an effective reset: any key other than a preserves it, the a key with
a falsy final time preserves it, and the send button never touches it. -/
theorem C10_start_instant_persists (fmt : ℚ → String) (cfg : Config)
    (s : RubiksCubeStopWatch) (t : ℚ) (hr : Reachable fmt cfg s t) :
    (s.final_time ≠ none → s.start_time ≠ none) ∧
    (∀ now k u, k ≠ "a" → s.start_time = some u →
      (handle_user_event fmt k now s).start_time = some u) ∧
    (∀ now u, pyTruthy s.final_time = false → s.start_time = some u →
      (handle_user_event fmt "a" now s).start_time = some u) ∧
    (∀ wr, (stepEvent fmt cfg (UiEvent.sendBtn wr) s).start_time =
      s.start_time) := by
  obtain ⟨h1, h2, h3, h4⟩ := reachable_inv fmt cfg s t hr
  refine ⟨h3, ?_, ?_, fun wr => (stepEvent_sendBtn_fields fmt cfg wr s).1⟩
  · intro now k u hk hu
    by_cases hsp : k = "space"
    · subst hsp
      have hne : s.start_time ≠ none := by
        rw [hu]
        exact Option.some_ne_none u
      cases htr : pyTruthy s.final_time with
      | false =>
        rw [handle_eq_stop fmt now s hne htr]
        simp [stop, hu]
      | true =>
        rw [handle_space_noop fmt now s hne htr]
        exact hu
    · rw [handle_other_noop fmt k now s hsp hk]
      exact hu
  · intro now u htr hu
    rw [handle_a_noop fmt now s htr]
    exact hu

/-- Claim C10, witness: at the reachable initial state the send button
leaves the start instant unchanged. -/
theorem C10_start_instant_persists_witness :
    (stepEvent (fun _ => "") [] (UiEvent.sendBtn WriteOutcome.success)
      initState).start_time = initState.start_time :=
  (C10_start_instant_persists (fun _ => "") [] initState 0
    Reachable.init).2.2.2 WriteOutcome.success

end RubiksCubeStopWatch

namespace RubiksCubeStopWatch

/-- Claim C3, counterexample: a present config file missing every required
field, the empty object, still loads and the window still opens, refuting
the claim that a missing required field is a startup-fatal error that
prevents the window from opening. -/
theorem C3_counterexample :
    initApp (some ([] : Config)) = Except.ok ([], initState) ∧
    ([] : Config).lookup "INFLUX_URL" = none :=
  ⟨rfl, rfl⟩

/-- Claim C3, amended: a missing config file is startup-fatal and no window
opens; a present config always opens the window whatever its fields, and a
missing required field surfaces only at send time, as a KeyError from
transmit_to_influxdb. -/
theorem C3_missing_field_fails_at_send :
    initApp none = Except.error "FileNotFoundError: config.json" ∧
    (∀ cfg : Config, initApp (some cfg) = Except.ok (cfg, initState)) ∧
    (∀ (cfg : Config) (wr : WriteOutcome) (s : RubiksCubeStopWatch) (r : ℚ),
      cfg.lookup "INFLUX_URL" = none →
      transmit_to_influxdb cfg wr s (some r) =
        Except.error "KeyError: INFLUX_URL") := by
  refine ⟨rfl, fun cfg => rfl, ?_⟩
  intro cfg wr s r hnone
  simp [transmit_to_influxdb, dictGet, hnone]

/-- Claim C3, witness for the amended statement: sending with the empty
config raises the KeyError for the endpoint URL. -/
theorem C3_missing_field_fails_at_send_witness :
    ([] : Config).lookup "INFLUX_URL" = none ∧
    transmit_to_influxdb ([] : Config) WriteOutcome.success initState
      (some 1) = Except.error "KeyError: INFLUX_URL" :=
  ⟨rfl,
   C3_missing_field_fails_at_send.2.2 [] WriteOutcome.success initState 1 rfl⟩

/-- Claim C4: with a complete config, a send from a stopped state preserves
the start instant, the final duration and the cube choice; a failing write
keeps the session stopped and puts the error message in the label, a
succeeding write moves the session to sent and sets the success caption; and
a repeated send from any state only ever changes displayed text, never the
session fields. -/
theorem C4_send_outcomes (fmt : ℚ → String) (cfg : Config)
    (s : RubiksCubeStopWatch) (wr : WriteOutcome) (u tk og bk : String)
    (hu : cfg.lookup "INFLUX_URL" = some u)
    (ht : cfg.lookup "INFLUX_TOKEN" = some tk)
    (ho : cfg.lookup "INFLUX_ORG" = some og)
    (hb : cfg.lookup "INFLUX_BUCKET" = some bk)
    (hs : sessionState s = SessionState.stopped) :
    (stepEvent fmt cfg (UiEvent.sendBtn wr) s).start_time = s.start_time ∧
    (stepEvent fmt cfg (UiEvent.sendBtn wr) s).final_time = s.final_time ∧
    (stepEvent fmt cfg (UiEvent.sendBtn wr) s).cube_choice = s.cube_choice ∧
    (∀ msg, wr = WriteOutcome.failure msg →
      sessionState (stepEvent fmt cfg (UiEvent.sendBtn wr) s) =
        SessionState.stopped ∧
      (stepEvent fmt cfg (UiEvent.sendBtn wr) s).label = msg) ∧
    (wr = WriteOutcome.success →
      sessionState (stepEvent fmt cfg (UiEvent.sendBtn wr) s) =
        SessionState.sent ∧
      (stepEvent fmt cfg (UiEvent.sendBtn wr) s).influx_btn_text =
        "Data sent to InfluxDb!") ∧
    (∀ (s2 : RubiksCubeStopWatch) (wr2 : WriteOutcome),
      (stepEvent fmt cfg (UiEvent.sendBtn wr2) s2).start_time = s2.start_time ∧
      (stepEvent fmt cfg (UiEvent.sendBtn wr2) s2).final_time = s2.final_time ∧
      (stepEvent fmt cfg (UiEvent.sendBtn wr2) s2).cube_choice =
        s2.cube_choice) := by
  obtain ⟨hfne, hbt⟩ := (sessionState_stopped_iff s).mp hs
  obtain ⟨v, hv⟩ := Option.ne_none_iff_exists'.mp hfne
  obtain ⟨f1, f2, f3, _⟩ := stepEvent_sendBtn_fields fmt cfg wr s
  refine ⟨f1, f2, f3, ?_, ?_,
    fun s2 wr2 => ⟨(stepEvent_sendBtn_fields fmt cfg wr2 s2).1,
      (stepEvent_sendBtn_fields fmt cfg wr2 s2).2.1,
      (stepEvent_sendBtn_fields fmt cfg wr2 s2).2.2.1⟩⟩
  · rintro msg rfl
    have heval := transmit_eval cfg s v (WriteOutcome.failure msg)
      u tk og bk hu ht ho hb
    have hstep : stepEvent fmt cfg (UiEvent.sendBtn (WriteOutcome.failure msg)) s =
        { s with label := msg } := by
      simp only [stepEvent, hv, heval]
    rw [hstep]
    exact ⟨(sessionState_stopped_iff _).mpr ⟨hfne, hbt⟩, rfl⟩
  · rintro rfl
    have heval := transmit_eval cfg s v WriteOutcome.success
      u tk og bk hu ht ho hb
    have hstep : stepEvent fmt cfg (UiEvent.sendBtn WriteOutcome.success) s =
        { s with influx_btn_text := "Data sent to InfluxDb!" } := by
      simp only [stepEvent, hv, heval]
    rw [hstep]
    exact ⟨(sessionState_sent_iff _).mpr ⟨hfne, rfl⟩, rfl⟩

/-- Claim C4, witness: from the sample stopped state with the complete
config, a failing write keeps the session stopped and shows the message. -/
theorem C4_send_outcomes_witness :
    sessionState stoppedState = SessionState.stopped ∧
    sessionState (stepEvent (fun _ => "") cfgFull
      (UiEvent.sendBtn (WriteOutcome.failure "write failed")) stoppedState) =
      SessionState.stopped ∧
    (stepEvent (fun _ => "") cfgFull
      (UiEvent.sendBtn (WriteOutcome.failure "write failed"))
      stoppedState).label = "write failed" :=
  ⟨rfl,
   ((C4_send_outcomes (fun _ => "") cfgFull stoppedState
      (WriteOutcome.failure "write failed") "http://localhost:8086" "tok"
      "org" "bucket" rfl rfl rfl rfl rfl).2.2.2.1 "write failed" rfl).1,
   ((C4_send_outcomes (fun _ => "") cfgFull stoppedState
      (WriteOutcome.failure "write failed") "http://localhost:8086" "tok"
      "org" "bucket" rfl rfl rfl rfl rfl).2.2.2.1 "write failed" rfl).2⟩

/-- Claim C8: with a complete config, every send with a recorded duration
hands the write exactly one point: the fixed solving_time measurement, one
tag pair carrying the cube kind selected at send time, and one numeric field
pair carrying the recorded seconds. -/
theorem C8_point_construction (cfg : Config) (s : RubiksCubeStopWatch)
    (wr : WriteOutcome) (r : ℚ) (u tk og bk : String)
    (hu : cfg.lookup "INFLUX_URL" = some u)
    (ht : cfg.lookup "INFLUX_TOKEN" = some tk)
    (ho : cfg.lookup "INFLUX_ORG" = some og)
    (hb : cfg.lookup "INFLUX_BUCKET" = some bk) :
    transmit_to_influxdb cfg wr s (some r) = Except.ok
      ((match wr with
        | WriteOutcome.success =>
            { s with influx_btn_text := "Data sent to InfluxDb!" }
        | WriteOutcome.failure msg => { s with label := msg }),
       some (Point.mk "solving_time" [("cube", s.cube_choice)]
         [("recorded_time", r)])) :=
  transmit_eval cfg s r wr u tk og bk hu ht ho hb

/-- Claim C8, witness: a successful send of 2 seconds from the sample
stopped state writes the solving_time point tagged speed. -/
theorem C8_point_construction_witness :
    transmit_to_influxdb cfgFull WriteOutcome.success stoppedState (some 2) =
      Except.ok
        ({ stoppedState with influx_btn_text := "Data sent to InfluxDb!" },
         some (Point.mk "solving_time" [("cube", stoppedState.cube_choice)]
           [("recorded_time", 2)])) :=
  C8_point_construction cfgFull stoppedState WriteOutcome.success 2
    "http://localhost:8086" "tok" "org" "bucket" rfl rfl rfl rfl

end RubiksCubeStopWatch
